import Mathlib

/-!
Verification of the `regularize` fluent regex-builder library.

This file gives a shallow embedding of the token-stack builder engine
(`regularize/expression.py`), the flag set (`regularize/flag.py`), the
extension registry (`regularize/expression.py`), and the bounded
LRU-ordered cache (`regularize/find.py`), and proves or refutes the
specification claims about them.

Modelling conventions:
* Python strings are `String`; the token deque is a `List Tok` (left end of
  the deque = head of the list).
* `Metacharacter` instances (`OpeningBracket`, `ClosingBracket`, `Or`) carry
  a `uid : Nat` modelling Python object identity: each allocation of a
  metacharacter object in the source receives a fresh uid. The class
  defines no `__eq__`, so Python compares these tokens by identity; string
  tokens compare by value. Serialization (`str`) ignores the uid.
* Methods that allocate a metacharacter instance take the fresh uid(s) as
  extra arguments; all serialisation results are proved independent of
  the chosen uids.
* Fallible Python code (raising `KeyError` / `AttributeError`) is embedded
  with `Except String`.
-/

set_option maxHeartbeats 1000000

namespace Regularize

/-- The three `Metacharacter` subclasses of `expression.py`:
`OpeningBracket`, `ClosingBracket`, `Or`. -/
inductive MetaKind where
  | opening
  | closing
  | orOp
deriving DecidableEq

/-- A token of the builder token stack: either a plain Python string
fragment, or a `Metacharacter` instance with object-identity `uid`. -/
inductive Tok where
  | str (s : String)
  | meta (k : MetaKind) (uid : Nat)
deriving DecidableEq

/-- `str(token)`: string fragments render as themselves,
`OpeningBracket.__str__` is `"["`, `ClosingBracket.__str__` is `"]"`,
`Or.__str__` is `"|"`. Identity (`uid`) does not influence rendering. -/
def Tok.render : Tok → String
  | .str s => s
  | .meta .opening _ => "["
  | .meta .closing _ => "]"
  | .meta .orOp _ => "|"

/-- `''.join(map(str, tokens))`. -/
def renderTokens : List Tok → String
  | [] => ""
  | t :: ts => t.render ++ renderTokens ts

/-- Python `==` on tokens: strings compare by value; `Metacharacter`
defines no `__eq__`, so instances compare by object identity (`uid`);
a string never equals a metacharacter instance. -/
def Tok.pyEq : Tok → Tok → Bool
  | .str a, .str b => a == b
  | .meta _ i, .meta _ j => i == j
  | _, _ => false

/-- Python `==` on the token deques (`deque.__eq__`): equal length and
elementwise `==`. -/
def listPyEq : List Tok → List Tok → Bool
  | [], [] => true
  | a :: as, b :: bs => a.pyEq b && listPyEq as bs
  | _, _ => false

/-- The four flag constants handled by `FlagSet`
(`re.IGNORECASE`, `re.ASCII`, `re.MULTILINE`, `re.DOTALL`). -/
inductive PFlag where
  | ignorecase
  | asciiOnly
  | multilineOpt
  | dotall
deriving DecidableEq

/-- `FlagSet._options`: a subset of the four flag constants, modelled as a
membership record. Python set equality coincides with record equality. -/
structure FlagSet where
  ignorecase : Bool := false
  asciiOnly : Bool := false
  multilineOpt : Bool := false
  dotall : Bool := false
deriving DecidableEq

/-- `flag in options` membership test. -/
def FlagSet.has (fs : FlagSet) : PFlag → Bool
  | .ignorecase => fs.ignorecase
  | .asciiOnly => fs.asciiOnly
  | .multilineOpt => fs.multilineOpt
  | .dotall => fs.dotall

/-- Set a single flag membership bit (used for both `set.add` and a
successful `set.remove`). -/
def FlagSet.set (fs : FlagSet) (f : PFlag) (b : Bool) : FlagSet :=
  match f with
  | .ignorecase => { fs with ignorecase := b }
  | .asciiOnly => { fs with asciiOnly := b }
  | .multilineOpt => { fs with multilineOpt := b }
  | .dotall => { fs with dotall := b }

/-- `FlagSet._add_option`: `self.options.add(flag)` (never fails). -/
def FlagSet.addOption (fs : FlagSet) (f : PFlag) : FlagSet := fs.set f true

/-- `FlagSet._remove_option`: `self.options.remove(flag)`.
Python `set.remove` raises `KeyError` when the element is absent. -/
def FlagSet.removeOption (fs : FlagSet) (f : PFlag) : Except String FlagSet :=
  if fs.has f then .ok (fs.set f false) else .error "KeyError"

/-- `FlagSet._update_option`. -/
def FlagSet.updateOption (fs : FlagSet) (f : PFlag) (enabled : Bool) :
    Except String FlagSet :=
  if enabled then .ok (fs.addOption f) else fs.removeOption f

/-- A `Pattern` (which is an `Expression` plus flags): `_token_stack`,
`_bracket_stack` and `_flags`. The `_bracket_stack` holds the
`OpeningBracket` instances currently regarded as unclosed.
(The per-instance extension registry is modelled separately, as it is
only observable through object identities; see `PatternObj` below.) -/
structure Pattern where
  tokens : List Tok := []
  brackets : List Tok := []
  flags : FlagSet := {}
deriving DecidableEq

/-- `Pattern()` with no parent: empty stacks, (lazily created) empty
flag set. -/
def emptyPattern : Pattern := {}

/-- `Expression.has_open_bracket` applied to a bracket stack: the stack is
non-empty and its last element is an `OpeningBracket` instance. -/
def hasOpenTop (bs : List Tok) : Bool :=
  match bs.getLast? with
  | some (.meta .opening _) => true
  | _ => false

/-- `Expression.has_open_bracket`. -/
def Pattern.has_open_bracket (p : Pattern) : Bool := hasOpenTop p.brackets

/-- The per-item bracket-stack maintenance loop of
`Expression.clone_with_updates`: an appended `ClosingBracket` pops the
stack when a bracket is open, an appended `OpeningBracket` is pushed,
every other appended token leaves the stack alone. -/
def updateBracketStack (bs : List Tok) (t : Tok) : List Tok :=
  match t with
  | .meta .closing _ => if hasOpenTop bs then bs.dropLast else bs
  | .meta .opening _ => bs ++ [t]
  | _ => bs

/-- `Expression.clone` / `Pattern.clone`: a fresh object carrying copies of
the token stack, bracket stack and flag set. In this pure model a full
copy of the observable state is the state itself. -/
def Pattern.clone (p : Pattern) : Pattern := p

/-- `Expression.clone_with_updates(append, prepend)`: clone, then
`token_stack.extendleft(reversed(prepend))` and `token_stack.extend(append)`
(so the new token stack is `prepend ++ tokens ++ append`), then run the
bracket-stack maintenance loop over the appended items only (prepended
items never touch the bracket stack). -/
def Pattern.clone_with_updates (p : Pattern) (prepend append : List Tok) :
    Pattern :=
  { p.clone with
    tokens := prepend ++ p.clone.tokens ++ append
    brackets := append.foldl updateBracketStack p.clone.brackets }

/-- `Expression.close_bracket`: return `self` unchanged when no bracket is
open; otherwise append one `ClosingBracket` instance (with fresh identity
`uid`) through `clone_with_updates`. (The `RuntimeError` branch of the
source requires the last stack item not to be an `OpeningBracket` even
though `has_open_bracket` returned true, which is impossible; it is dead
code and has no counterpart here.) -/
def Pattern.close_bracket (p : Pattern) (uid : Nat) : Pattern :=
  if p.has_open_bracket then p.clone_with_updates [] [.meta .closing uid] else p

/-- `Expression._prepare_for_build`. -/
def Pattern.prepare_for_build (p : Pattern) (uid : Nat) : Pattern :=
  p.close_bracket uid

/-- `Expression.build`: `''.join(map(str, self._prepare_for_build().token_stack))`.
`uid` is the identity of the `ClosingBracket` allocated when a bracket is
still open; it does not affect the rendered text (proved below). -/
def Pattern.build (p : Pattern) (uid : Nat) : String :=
  renderTokens (p.prepare_for_build uid).tokens

/-- `Expression.__add__`: `new = self.__class__(parent=self)` copies the
left operand, then `new._copy_state(other, clear=False)` extends the token
stack and the bracket stack with the right operand's stacks. The flags are
untouched along this path (`Pattern.__init__` leaves `_flags = None` and
`Pattern._copy_state` does not copy flags), so the sum has an empty,
lazily-created flag set. -/
def Pattern.addP (a b : Pattern) : Pattern :=
  { tokens := a.tokens ++ b.tokens
    brackets := a.brackets ++ b.brackets
    flags := {} }

/-- The characters in CPython's `re._special_chars_map`
(`()[]` braces `?*+-|^$\.&~#` and whitespace). -/
def reSpecialChars : List Char :=
  ['(', ')', '[', ']', '\x7b', '\x7d', '?', '*', '+', '-', '|', '^', '$',
   '\\', '.', '&', '~', '#', ' ', '\t', '\n', '\r', '\x0b', '\x0c']

/-- `re.escape` (CPython 3.7+): a backslash is inserted before each of the
special characters; all other characters pass through unchanged. -/
def reEscapeChar (c : Char) : String :=
  if c ∈ reSpecialChars then "\\" ++ c.toString else c.toString

/-- `re.escape` applied to a whole string. -/
def reEscape : List Char → String
  | [] => ""
  | c :: cs => reEscapeChar c ++ reEscape cs

/-- `re.escape(s)`. -/
def reEscapeStr (s : String) : String := reEscape s.toList

/-- `Pattern.raw(string)`: `clone_with_updates(string)`. -/
def Pattern.raw (p : Pattern) (s : String) : Pattern :=
  p.clone_with_updates [] [.str s]

/-- A member passed to `any_of` / `none_of`: either a plain string or a
pre-built `BracketExpression` fragment object. -/
inductive ClassMember where
  | plain (s : String)
  | frag (s : String)

/-- The `ensure` classmethod on bracket-expression fragments: fragments
pass through verbatim; any other value `v` becomes
`Literal()(v).build()`. `Literal()(v)` is an empty pattern extended with
the single token `re.escape(v)`, so its `build()` (no bracket open)
renders exactly that token. -/
def ClassMember.ensure : ClassMember → String
  | .plain s => (emptyPattern.clone_with_updates [] [.str (reEscapeStr s)]).build 0
  | .frag s => s

/-- `''.join(map(str, map(ensure, members)))`. -/
def memberConcat (members : List ClassMember) : String :=
  renderMembers members
where
  renderMembers : List ClassMember → String
    | [] => ""
    | m :: ms => m.ensure ++ renderMembers ms

/-- `Pattern.any_of(*members, close=True)`: append an `OpeningBracket`
instance (identity `uidOpen`), then, when members were given, append their
concatenation as one string token, then (when `close` holds) close the
bracket via `close_bracket` (allocating a `ClosingBracket` with identity
`uidClose`). -/
def Pattern.any_of (p : Pattern) (members : List ClassMember)
    (uidOpen uidClose : Nat) (close : Bool := true) : Pattern :=
  let c1 := p.clone_with_updates [] [.meta .opening uidOpen]
  let c2 :=
    if members.isEmpty then c1
    else c1.clone_with_updates [] [.str (memberConcat members)]
  if close then c2.close_bracket uidClose else c2

/-- `Pattern.none_of(*members)`: append an `OpeningBracket` instance, then,
when members were given, append `"^" + concatenation` as one string token.
The bracket is deliberately left open. -/
def Pattern.none_of (p : Pattern) (members : List ClassMember)
    (uidOpen : Nat) : Pattern :=
  let c1 := p.clone_with_updates [] [.meta .opening uidOpen]
  if members.isEmpty then c1
  else c1.clone_with_updates [] [.str ("^" ++ memberConcat members)]

/-- Number of `OpeningBracket` tokens in a token list. -/
def countOpen (ts : List Tok) : Nat :=
  ts.countP fun t => match t with | .meta .opening _ => true | _ => false

/-- Number of `ClosingBracket` tokens in a token list. -/
def countClose (ts : List Tok) : Nat :=
  ts.countP fun t => match t with | .meta .closing _ => true | _ => false

/-- The numbers passed to `Pattern.quantify`: integers or `math.inf`
(the default for `maximum`). Equality is Python `==` (an integer never
equals `math.inf`), and `.inf` plays the role of the unique value for
which `math.isinf` holds. -/
inductive ENum where
  | int (n : Int)
  | inf
deriving DecidableEq

/-- Python `>` on these numbers: `math.inf` is greater than every
integer and not greater than itself. -/
def ENum.pyGT : ENum → ENum → Bool
  | .int a, .int b => decide (b < a)
  | .inf, .int _ => true
  | .int _, .inf => false
  | .inf, .inf => false

/-- Python `str()` / f-string formatting of such a number. -/
def ENum.pyStr : ENum → String
  | .int n => toString n
  | .inf => "inf"

/-- The quantifier chosen by the if/elif chain of `Pattern.quantify`
(`regularize` variant), first match wins; `none` when no branch matches
(the local variable `addition` stays `None`). Conditions mirror the
source: `minimum == 0 and math.isinf(maximum)`, `minimum == 0 and
maximum == 1`, `minimum == 1 and math.isinf(maximum)`,
`minimum == maximum`, `minimum > 1 and math.isinf(maximum)`,
`not math.isinf(maximum)`. -/
def quantAddition (mn mx : ENum) : Option String :=
  if mn = .int 0 ∧ mx = .inf then some "*"
  else if mn = .int 0 ∧ mx = .int 1 then some "?"
  else if mn = .int 1 ∧ mx = .inf then some "+"
  else if mn = mx then some ("\x7b" ++ mn.pyStr ++ "\x7d")
  else if ENum.pyGT mn (.int 1) = true ∧ mx = .inf then
    some ("\x7b" ++ mn.pyStr ++ ",\x7d")
  else if ¬ mx = .inf then
    some ("\x7b" ++ mn.pyStr ++ "," ++ mx.pyStr ++ "\x7d")
  else none

/-- `Pattern.quantify(minimum, maximum)`:
`self.close_bracket().clone_with_updates(append=addition)`. A `None`
addition appends no token at all (`clone_with_updates` turns it into an
empty extension); a string addition is appended as one token. `uid` is
the identity of the `ClosingBracket` that `close_bracket` may allocate. -/
def Pattern.quantify (p : Pattern) (mn mx : ENum) (uid : Nat) : Pattern :=
  (p.close_bracket uid).clone_with_updates []
    ((quantAddition mn mx).toList.map Tok.str)

/-- The shared body of the four flag-toggle methods of `Pattern`
(`case_insensitive`, `multiline`, `dot_matches_newline`, `ascii_only`):
`clone = self.clone()`, then mutate the clone's (freshly copied) flag set
through `FlagSet._update_option`, then return the clone. The `KeyError`
that `set.remove` raises for an absent flag propagates. -/
def Pattern.updateFlag (p : Pattern) (f : PFlag) (enabled : Bool) :
    Except String Pattern :=
  (p.clone.flags.updateOption f enabled).map fun fs => { p.clone with flags := fs }

/-- `Pattern.case_insensitive(enabled=True)`. -/
def Pattern.case_insensitive (p : Pattern) (enabled : Bool := true) :
    Except String Pattern :=
  p.updateFlag .ignorecase enabled

/-- `Pattern.multiline(enabled=True)`. -/
def Pattern.multiline (p : Pattern) (enabled : Bool := true) :
    Except String Pattern :=
  p.updateFlag .multilineOpt enabled

/-- `Pattern.dot_matches_newline(enabled=True)`. -/
def Pattern.dot_matches_newline (p : Pattern) (enabled : Bool := true) :
    Except String Pattern :=
  p.updateFlag .dotall enabled

/-- `Pattern.ascii_only(enabled=True)`. -/
def Pattern.ascii_only (p : Pattern) (enabled : Bool := true) :
    Except String Pattern :=
  p.updateFlag .asciiOnly enabled

/-- The result of a flag toggle with `enabled=True` (which never fails):
a clone whose flag set additionally contains `f`. -/
def Pattern.enableFlag (p : Pattern) (f : PFlag) : Pattern :=
  { p.clone with flags := p.clone.flags.addOption f }

/-- `Pattern.__eq__`: `self.flags == other.flags and
self.token_stack == other.token_stack`. Flag sets compare as sets
(record equality); token deques compare elementwise under Python token
equality. The bracket stack takes no part in equality. -/
def Pattern.pyEq (p q : Pattern) : Bool :=
  (p.flags == q.flags) && listPyEq p.tokens q.tokens

/-- The receiver of `Expression.build` after the call returns. The method
only reads `self`: `close_bracket` either returns `self` or builds a fresh
clone, and `clone_with_updates` mutates that clone's stacks only, so no
field of the receiver is ever assigned. -/
def Pattern.buildSelfAfter (p : Pattern) (_uid : Nat) : Pattern := p

/-! ### The bounded cache of `regularize/find.py` -/

/-- First-match association-list lookup: `key in dict` / `dict[key]`.
(The cache dictionary always has pairwise distinct keys, so first-match
lookup is dictionary lookup.) -/
def findVal {K V : Type} [DecidableEq K] : List (K × V) → K → Option V
  | [], _ => none
  | kv :: rest, key => if kv.1 = key then some kv.2 else findVal rest key

/-- `del dict[key]`: remove the (unique) entry with the given key,
preserving the insertion order of the others. -/
def removeKey {K V : Type} [DecidableEq K] : List (K × V) → K → List (K × V)
  | [], _ => []
  | kv :: rest, key => if kv.1 = key then rest else kv :: removeKey rest key

/-- `Cache`: the insertion-ordered dictionary (Python 3.7 dicts preserve
insertion order, head = oldest) together with `maxsize` and the three
statistics counters. -/
structure Cache (K V : Type) where
  data : List (K × V) := []
  maxsize : Int
  hits : Nat := 0
  misses : Nat := 0
  maxsizeReached : Nat := 0

/-- `Cache.current_size`. -/
def Cache.current_size {K V : Type} (c : Cache K V) : Nat := c.data.length

/-- `Cache.add(key, entry)`: `setdefault` (insert at the new end only when
the key is absent), then, when the store exceeds `maxsize`, count an
eviction and delete the first (oldest) key. -/
def Cache.add {K V : Type} [DecidableEq K] (c : Cache K V) (key : K)
    (entry : V) : Cache K V :=
  let d := if (findVal c.data key).isSome then c.data else c.data ++ [(key, entry)]
  if c.maxsize < (d.length : Int) then
    { c with data := d.tail, maxsizeReached := c.maxsizeReached + 1 }
  else
    { c with data := d }

/-- `Cache.get(key)`: on a miss count a miss and return `(NOT_FOUND, False)`
leaving the store untouched; on a hit count a hit, delete the entry and
re-add it at the new end (the LRU move-to-front emulation), and return
`(entry, True)`. -/
def Cache.get {K V : Type} [DecidableEq K] (c : Cache K V) (key : K) :
    (Option V × Bool) × Cache K V :=
  match findVal c.data key with
  | none => ((none, false), { c with misses := c.misses + 1 })
  | some entry =>
      let c1 := { c with hits := c.hits + 1, data := removeKey c.data key }
      ((some entry, true), c1.add key entry)

/-- `Cache.clear`: reset the statistics and empty the store. -/
def Cache.clear {K V : Type} (c : Cache K V) : Cache K V :=
  { c with data := [], hits := 0, misses := 0, maxsizeReached := 0 }

/-- One observable cache operation. -/
inductive CacheOp (K V : Type) where
  | get (key : K)
  | add (key : K) (entry : V)
  | clear

/-- Apply one operation to the cache state. -/
def Cache.runOp {K V : Type} [DecidableEq K] (c : Cache K V) :
    CacheOp K V → Cache K V
  | .get k => (c.get k).2
  | .add k v => c.add k v
  | .clear => c.clear

/-- Apply a sequence of operations. -/
def Cache.runOps {K V : Type} [DecidableEq K] (c : Cache K V)
    (ops : List (CacheOp K V)) : Cache K V :=
  ops.foldl Cache.runOp c

/-! ### The extension registry (identity-level model)

Claim C4 is about object identities: which `Pattern` instance an
extension gets bound to. Token and flag contents are irrelevant to it, so
the model projects a `Pattern` to its identity `pid` plus its
`_extensions` slot. -/

/-- `ExtensionRegistry.__init__(pattern)` state: the per-instance
`_registry` dict (name to extension-class identity), the `_pattern`
reference (stored as the referenced pattern's identity), and the lazy
callback cache. -/
structure ExtensionRegistry where
  registryMap : List (String × Nat) := []
  patternRef : Nat
  callbacksReady : Bool := false
  callbacks : List (String × (Nat × Nat)) := []

/-- `ExtensionRegistry.clone`: `new = self.__class__(self._pattern)` — a
fresh registry holding the SAME `_pattern` reference and an EMPTY
`_registry` — followed by the (already false) reset of
`_callbacks_initialized`. -/
def ExtensionRegistry.cloneReg (r : ExtensionRegistry) : ExtensionRegistry :=
  { patternRef := r.patternRef }

/-- `ExtensionRegistry._initialize_callbacks`: on the first attribute
access, instantiate every registered class against `self._pattern`
(recording, per name, the class identity and the identity of the pattern
it was bound to). -/
def ExtensionRegistry.setupCallbacks (r : ExtensionRegistry) : ExtensionRegistry :=
  if r.callbacksReady then r
  else
    { r with
      callbacks := r.registryMap.map fun nk => (nk.1, (nk.2, r.patternRef))
      callbacksReady := true }

/-- `ExtensionRegistry.__getattr__(item)`: when the name is registered,
force callback creation and return the cached bound callable (class
identity, bound pattern identity) together with the updated registry
state; otherwise raise `AttributeError`. (The inner lookup after a
successful membership test can only fail when the callbacks were frozen
before the name was registered; that raises `KeyError` in Python.) -/
def ExtensionRegistry.getattrExt (r : ExtensionRegistry) (name : String) :
    Except String (ExtensionRegistry × (Nat × Nat)) :=
  if (findVal r.registryMap name).isSome then
    let r1 := r.setupCallbacks
    match findVal r1.callbacks name with
    | some cb => .ok (r1, cb)
    | none => .error "KeyError"
  else .error "AttributeError"

/-- The identity-level view of a `Pattern`: its object identity `pid` and
its `_extensions` slot (`None` until the `ext` property is first read). -/
structure PatternObj where
  pid : Nat
  ext : Option ExtensionRegistry := none

/-- The `ext` property: return the existing registry or create a fresh
one bound to `self`. -/
def PatternObj.extOf (p : PatternObj) : ExtensionRegistry :=
  p.ext.getD { patternRef := p.pid }

/-- `Pattern.clone` as it affects identity and extensions: the new object
has a fresh identity `newPid`, and `_on_after_clone` stores
`self.extensions.clone()` on it. -/
def PatternObj.cloneObj (p : PatternObj) (newPid : Nat) : PatternObj :=
  { pid := newPid, ext := some p.extOf.cloneReg }

/-- Registering an extension class (identity `klass`) under `name` on this
pattern instance (`pattern.ext[name] = klass`): inserts into the
per-instance `_registry` dict. -/
def PatternObj.registerExt (p : PatternObj) (name : String) (klass : Nat) :
    PatternObj :=
  { p with
    ext := some { p.extOf with registryMap := p.extOf.registryMap ++ [(name, klass)] } }

/-- An empty cache constructed with `maxsize=2` (used by the eviction
scenarios). -/
def cache2 (K V : Type) : Cache K V := { maxsize := 2 }

/-! ## Helper lemmas -/

theorem renderTokens_append (l1 l2 : List Tok) :
    renderTokens (l1 ++ l2) = renderTokens l1 ++ renderTokens l2 := by
  induction l1 with
  | nil => simp [renderTokens]
  | cons t ts ih => simp [renderTokens, ih, String.append_assoc]

/-- What `_prepare_for_build` (= `close_bracket`) does to the token stack:
append one `ClosingBracket` when a bracket is open, nothing otherwise. -/
theorem prepare_for_build_tokens (p : Pattern) (uid : Nat) :
    (p.prepare_for_build uid).tokens
      = p.tokens ++ (if p.has_open_bracket then [Tok.meta .closing uid] else []) := by
  simp only [Pattern.prepare_for_build, Pattern.close_bracket,
    Pattern.clone_with_updates, Pattern.clone]
  split <;> simp

theorem tokPyEq_refl (t : Tok) : t.pyEq t = true := by
  cases t <;> simp [Tok.pyEq]

theorem listPyEq_refl (l : List Tok) : listPyEq l l = true := by
  induction l with
  | nil => rfl
  | cons t ts ih => simp [listPyEq, tokPyEq_refl, ih]

theorem addOption_comm (fs : FlagSet) (f g : PFlag) :
    (fs.addOption f).addOption g = (fs.addOption g).addOption f := by
  cases f <;> cases g <;> rfl

theorem removeKey_length_le {K V : Type} [DecidableEq K]
    (l : List (K × V)) (k : K) : (removeKey l k).length ≤ l.length := by
  induction l with
  | nil => simp [removeKey]
  | cons kv rest ih =>
      simp only [removeKey]
      split
      · simp
      · simpa using Nat.succ_le_succ ih

theorem Cache.add_maxsize {K V : Type} [DecidableEq K] (c : Cache K V)
    (k : K) (v : V) : (c.add k v).maxsize = c.maxsize := by
  simp only [Cache.add]
  split <;> split <;> rfl

theorem Cache.add_size_le {K V : Type} [DecidableEq K] (c : Cache K V)
    (k : K) (v : V) (h : (c.current_size : Int) ≤ c.maxsize) :
    ((c.add k v).current_size : Int) ≤ c.maxsize := by
  simp only [Cache.add, Cache.current_size] at h ⊢
  split
  · split
    · dsimp only
      simp only [List.length_tail]
      omega
    · rename_i hle
      dsimp only
      omega
  · split
    · dsimp only
      simp only [List.length_tail, List.length_append, List.length_cons,
        List.length_nil]
      omega
    · rename_i hle
      dsimp only
      simp only [List.length_append, List.length_cons, List.length_nil] at hle ⊢
      omega

theorem Cache.get_maxsize {K V : Type} [DecidableEq K] (c : Cache K V)
    (k : K) : (c.get k).2.maxsize = c.maxsize := by
  simp only [Cache.get]
  split
  · rfl
  · exact Cache.add_maxsize _ _ _

theorem Cache.get_size_le {K V : Type} [DecidableEq K] (c : Cache K V)
    (k : K) (h : (c.current_size : Int) ≤ c.maxsize) :
    (((c.get k).2.current_size : Int)) ≤ c.maxsize := by
  simp only [Cache.get]
  split
  · exact h
  · exact Cache.add_size_le _ _ _
      (by
        simp only [Cache.current_size] at h ⊢
        have := removeKey_length_le c.data k
        omega)

theorem Cache.runOp_maxsize {K V : Type} [DecidableEq K] (c : Cache K V)
    (op : CacheOp K V) : (c.runOp op).maxsize = c.maxsize := by
  cases op with
  | get k => exact Cache.get_maxsize _ _
  | add k v => exact Cache.add_maxsize _ _ _
  | clear => rfl

theorem Cache.runOp_size_le {K V : Type} [DecidableEq K] (c : Cache K V)
    (op : CacheOp K V) (h : (c.current_size : Int) ≤ c.maxsize) :
    ((c.runOp op).current_size : Int) ≤ (c.runOp op).maxsize := by
  rw [Cache.runOp_maxsize]
  cases op with
  | get k => exact Cache.get_size_le _ _ h
  | add k v => exact Cache.add_size_le _ _ _ h
  | clear =>
      simp only [Cache.runOp, Cache.clear, Cache.current_size, List.length_nil]
      simp only [Cache.current_size] at h
      omega

theorem Cache.runOps_size_le {K V : Type} [DecidableEq K]
    (ops : List (CacheOp K V)) (c : Cache K V)
    (h : (c.current_size : Int) ≤ c.maxsize) :
    ((c.runOps ops).current_size : Int) ≤ (c.runOps ops).maxsize := by
  induction ops generalizing c with
  | nil => exact h
  | cons op rest ih =>
      simp only [Cache.runOps, List.foldl_cons] at ih ⊢
      exact ih _ (Cache.runOp_size_le c op h)

theorem Cache.runOps_maxsize {K V : Type} [DecidableEq K]
    (ops : List (CacheOp K V)) (c : Cache K V) :
    (c.runOps ops).maxsize = c.maxsize := by
  induction ops generalizing c with
  | nil => rfl
  | cons op rest ih =>
      simp only [Cache.runOps, List.foldl_cons] at ih ⊢
      rw [ih, Cache.runOp_maxsize]

/-- The token stack produced by `quantify`. -/
theorem quantify_tokens (p : Pattern) (mn mx : ENum) (uid : Nat) :
    (p.quantify mn mx uid).tokens
      = (p.close_bracket uid).tokens ++ (quantAddition mn mx).toList.map Tok.str := by
  simp [Pattern.quantify, Pattern.clone_with_updates, Pattern.clone]

/-! ## Claims -/

/-- Claim C1, counterexample. Two `none_of` calls (each of which opens a
bracket and deliberately leaves it open) leave `n = 2` open brackets
outstanding, yet `build()` auto-appends only ONE closing bracket, not one
per outstanding open bracket: the prepared token stack grows by exactly
one token, contains two `OpeningBracket` tokens but a single
`ClosingBracket` token, and the built string `"[^a[^b]"` has an unmatched
`[` arising from a bracket token. -/
theorem build_auto_close_cex :
    ((emptyPattern.none_of [.plain "a"] 0).none_of [.plain "b"] 1).brackets.length = 2
    ∧ (((emptyPattern.none_of [.plain "a"] 0).none_of [.plain "b"] 1).prepare_for_build 2).tokens.length
        = ((emptyPattern.none_of [.plain "a"] 0).none_of [.plain "b"] 1).tokens.length + 1
    ∧ countOpen ((((emptyPattern.none_of [.plain "a"] 0).none_of [.plain "b"] 1).prepare_for_build 2)).tokens = 2
    ∧ countClose ((((emptyPattern.none_of [.plain "a"] 0).none_of [.plain "b"] 1).prepare_for_build 2)).tokens = 1
    ∧ ((emptyPattern.none_of [.plain "a"] 0).none_of [.plain "b"] 1).build 2 = "[^a[^b]" := by
  refine ⟨by decide, by decide, by decide, by decide, by decide⟩

/-- Claim C1, amended: `build()` first runs `close_bracket` once, which
auto-appends exactly ONE `ClosingBracket` when a bracket is open (and
nothing otherwise) — not one closing bracket per outstanding open
bracket. The serialized string is the rendering of the original tokens
followed by at most one `]`. -/
theorem build_auto_close_amended (p : Pattern) (uid : Nat) :
    (p.prepare_for_build uid).tokens
      = p.tokens ++ (if p.has_open_bracket then [Tok.meta .closing uid] else [])
    ∧ p.build uid
      = renderTokens p.tokens ++ (if p.has_open_bracket then "]" else "") := by
  refine ⟨prepare_for_build_tokens p uid, ?_⟩
  simp only [Pattern.build, prepare_for_build_tokens, renderTokens_append]
  cases h : p.has_open_bracket <;> simp [renderTokens, Tok.render]

/-- Claim C2: `quantify(minimum, maximum)` auto-closes any open bracket
and then appends the quantifier chosen by the first matching rule of the
precedence-ordered table: `(0, inf)` gives `*`, `(0, 1)` gives `?`,
`(1, inf)` gives `+`, `minimum = maximum` gives `\x7bm\x7d`,
`(m > 1, inf)` gives `\x7bm,\x7d`, and any remaining pair with finite
maximum gives `\x7bminimum,maximum\x7d`; in particular `quantify(0,1)`
yields `?` and `quantify(1,61)` yields `\x7b1,61\x7d`. -/
theorem quantifier_table (p : Pattern) (uid : Nat) (mn mx : ENum) (m M : Int) :
    (p.quantify mn mx uid).tokens
      = (p.close_bracket uid).tokens ++ (quantAddition mn mx).toList.map Tok.str
    ∧ quantAddition (.int 0) .inf = some "*"
    ∧ quantAddition (.int 0) (.int 1) = some "?"
    ∧ quantAddition (.int 1) .inf = some "+"
    ∧ quantAddition (.int m) (.int m) = some ("\x7b" ++ toString m ++ "\x7d")
    ∧ (1 < m → quantAddition (.int m) .inf = some ("\x7b" ++ toString m ++ ",\x7d"))
    ∧ (¬ (m = 0 ∧ M = 1) → ¬ m = M →
        quantAddition (.int m) (.int M)
          = some ("\x7b" ++ toString m ++ "," ++ toString M ++ "\x7d"))
    ∧ quantAddition (.int 1) (.int 61) = some "\x7b1,61\x7d" := by
  refine ⟨quantify_tokens p mn mx uid, by decide, by decide, by decide, ?_, ?_, ?_, by decide⟩
  · simp only [quantAddition]
    rw [if_neg (by simp), if_neg (by simp; omega), if_neg (by simp)]
    simp [ENum.pyStr]
  · intro h
    simp only [quantAddition]
    rw [if_neg (by simp; omega), if_neg (by simp), if_neg (by simp; omega),
      if_neg (by simp)]
    simp [ENum.pyGT, ENum.pyStr, h]
  · intro hne hMm
    simp only [quantAddition]
    rw [if_neg (by simp), if_neg (by simpa using hne), if_neg (by simp),
      if_neg (by simpa using hMm), if_neg (by simp)]
    simp [ENum.pyStr]

/-- Claim C2, witness: the theorem evaluated at concrete inputs,
discharging the row hypotheses for the rows `(5, inf)` and `(2, 9)`. -/
theorem quantifier_table_witness :
    quantAddition (.int 5) .inf = some "\x7b5,\x7d"
    ∧ quantAddition (.int 2) (.int 9) = some "\x7b2,9\x7d" :=
  ⟨((quantifier_table emptyPattern 0 (.int 5) .inf 5 9).2.2.2.2.2.1
      (by decide)).trans (by decide),
   (((quantifier_table emptyPattern 0 (.int 2) (.int 9) 2 9).2.2.2.2.2.2.1
      (by decide)) (by decide)).trans (by decide)⟩

/-- Claim C5, counterexample: concatenating the empty Expression with an
Expression carrying an outstanding open bracket yields a result whose
bracket stack is NOT the left operand's bracket stack alone — the right
operand's bracket bookkeeping is merged in
(`_copy_state(other, clear=False)` extends the bracket stack). -/
theorem add_bracket_cex :
    (emptyPattern.addP (emptyPattern.none_of [.plain "a"] 0)).brackets
      = [Tok.meta .opening 0]
    ∧ emptyPattern.brackets = []
    ∧ ¬ (emptyPattern.addP (emptyPattern.none_of [.plain "a"] 0)).brackets
        = emptyPattern.brackets := by
  refine ⟨by decide, by decide, by decide⟩

/-- Claim C5, amended: `A + B` is a new Expression whose token stack is
A tokens followed by B tokens and whose bracket stack is A's bracket
stack followed by B's bracket stack (so it equals A's bracket stack alone
exactly when B has no outstanding brackets). -/
theorem add_concat_amended (a b : Pattern) :
    (a.addP b).tokens = a.tokens ++ b.tokens
    ∧ (a.addP b).brackets = a.brackets ++ b.brackets
    ∧ (b.brackets = [] → (a.addP b).brackets = a.brackets) := by
  refine ⟨rfl, rfl, fun h => ?_⟩
  simp [Pattern.addP, h]

/-- Claim C5, witness for the amended claim at a concrete input with an
empty right-hand bracket stack. -/
theorem add_concat_amended_witness :
    ((emptyPattern.raw "x").addP (emptyPattern.raw "y")).brackets
      = (emptyPattern.raw "x").brackets :=
  (add_concat_amended (emptyPattern.raw "x") (emptyPattern.raw "y")).2.2 (by decide)

/-- Claim C8: `build()` is pure and idempotent — two successive calls
yield the identical string (even with distinct fresh identities for the
auto-allocated `ClosingBracket`), and the receiver's token stack, bracket
stack and flag state are unchanged by the call (`build` only reads
`self`; its writes go to the clone produced by
`close_bracket`/`clone_with_updates`). -/
theorem build_pure_idempotent (p : Pattern) (u v : Nat) :
    p.build u = p.build v
    ∧ p.buildSelfAfter u = p
    ∧ (p.buildSelfAfter u).tokens = p.tokens
    ∧ (p.buildSelfAfter u).brackets = p.brackets
    ∧ (p.buildSelfAfter u).flags = p.flags
    ∧ (p.buildSelfAfter u).build v = p.build v := by
  refine ⟨?_, rfl, rfl, rfl, rfl, rfl⟩
  simp only [Pattern.build, prepare_for_build_tokens, renderTokens_append]
  cases h : p.has_open_bracket <;> simp [renderTokens, Tok.render]

/-- Claim C10: a numeric pair matching no row of the quantifier table —
with integer-or-infinite arguments, exactly a negative minimum combined
with an infinite maximum — leaves `addition = None`; `quantify` then
raises nothing (the whole code path is total) and returns the
auto-closed clone with no quantifier token appended: it IS
`close_bracket` of the pattern. -/
theorem quantify_no_row (p : Pattern) (uid : Nat) (mn mx : ENum) (m : Int) :
    (quantAddition mn mx = none → p.quantify mn mx uid = p.close_bracket uid)
    ∧ (m < 0 → quantAddition (.int m) .inf = none) := by
  constructor
  · intro h
    simp [Pattern.quantify, h, Pattern.clone_with_updates, Pattern.clone]
  · intro h
    simp only [quantAddition]
    rw [if_neg (by simp; omega), if_neg (by simp), if_neg (by simp; omega),
      if_neg (by simp), if_neg (by simp [ENum.pyGT]; omega),
      if_neg (by simp)]

/-- Claim C10, witness: `quantify(-1, inf)` at a concrete pattern. -/
theorem quantify_no_row_witness :
    emptyPattern.quantify (.int (-1)) .inf 0 = emptyPattern.close_bracket 0
    ∧ quantAddition (.int (-1)) .inf = none :=
  ⟨(quantify_no_row emptyPattern 0 (.int (-1)) .inf (-1)).1
    ((quantify_no_row emptyPattern 0 (.int (-1)) .inf (-1)).2 (by decide)),
   (quantify_no_row emptyPattern 0 (.int (-1)) .inf (-1)).2 (by decide)⟩

/-- Claim C3: with `maxsize=2` and distinct keys, inserting `A, B, C` with
no intervening `get` evicts `A` on the insertion of `C` (`A` absent, `B`
and `C` present); whereas inserting `A, B`, hitting `get(A)`, then
inserting `C` evicts `B` and keeps `A`, because the hit re-inserted `A`
at the most-recently-used end. -/
theorem cache_lru_eviction {K V : Type} [DecidableEq K] (A B C : K)
    (vA vB vC : V) (hAB : ¬ A = B) (hAC : ¬ A = C) (hBC : ¬ B = C) :
    (findVal ((((cache2 K V).add A vA).add B vB).add C vC).data A = none
     ∧ findVal ((((cache2 K V).add A vA).add B vB).add C vC).data B = some vB
     ∧ findVal ((((cache2 K V).add A vA).add B vB).add C vC).data C = some vC)
    ∧ ((((cache2 K V).add A vA).add B vB).get A).1 = (some vA, true)
    ∧ (findVal (((((cache2 K V).add A vA).add B vB).get A).2.add C vC).data B = none
       ∧ findVal (((((cache2 K V).add A vA).add B vB).get A).2.add C vC).data A = some vA
       ∧ findVal (((((cache2 K V).add A vA).add B vB).get A).2.add C vC).data C = some vC) := by
  have hBA : ¬ B = A := fun h => hAB h.symm
  have hCA : ¬ C = A := fun h => hAC h.symm
  have hCB : ¬ C = B := fun h => hBC h.symm
  have s1 : (cache2 K V).add A vA = { data := [(A, vA)], maxsize := 2 } := by
    norm_num [cache2, Cache.add, findVal]
  have s2 : ((cache2 K V).add A vA).add B vB
      = { data := [(A, vA), (B, vB)], maxsize := 2 } := by
    rw [s1]; norm_num [Cache.add, findVal, hAB]
  have s3 : (((cache2 K V).add A vA).add B vB).add C vC
      = { data := [(B, vB), (C, vC)], maxsize := 2, maxsizeReached := 1 } := by
    rw [s2]; norm_num [Cache.add, findVal, hAC, hBC]
  have g : (((cache2 K V).add A vA).add B vB).get A
      = ((some vA, true),
         { data := [(B, vB), (A, vA)], maxsize := 2, hits := 1 }) := by
    rw [s2]; norm_num [Cache.get, Cache.add, findVal, removeKey, hBA]
  have s4 : ((((cache2 K V).add A vA).add B vB).get A).2.add C vC
      = { data := [(A, vA), (C, vC)], maxsize := 2, hits := 1,
          maxsizeReached := 1 } := by
    rw [g]; norm_num [Cache.add, findVal, hAC, hBC]
  rw [s3, s4, g]
  norm_num [findVal, hAB, hBA, hCA, hCB, hAC, hBC]

/-- Claim C3, witness: the eviction scenarios at the concrete keys
`0, 1, 2`. -/
theorem cache_lru_eviction_witness :
    (findVal ((((cache2 Nat Nat).add 0 10).add 1 11).add 2 12).data 0 = none
     ∧ findVal ((((cache2 Nat Nat).add 0 10).add 1 11).add 2 12).data 1 = some 11
     ∧ findVal ((((cache2 Nat Nat).add 0 10).add 1 11).add 2 12).data 2 = some 12)
    ∧ ((((cache2 Nat Nat).add 0 10).add 1 11).get 0).1 = (some 10, true)
    ∧ (findVal (((((cache2 Nat Nat).add 0 10).add 1 11).get 0).2.add 2 12).data 1 = none
       ∧ findVal (((((cache2 Nat Nat).add 0 10).add 1 11).get 0).2.add 2 12).data 0 = some 10
       ∧ findVal (((((cache2 Nat Nat).add 0 10).add 1 11).get 0).2.add 2 12).data 2 = some 12) :=
  cache_lru_eviction 0 1 2 10 11 12 (by decide) (by decide) (by decide)

/-- Claim C4 (evaluation at the failing input): register extension
`"tag"` (class identity 7) on pattern `p` (identity 0), then clone `p`
into `q` (identity 1). The cloned registry has an EMPTY registration
table and still references the ORIGINAL pattern (identity 0, not 1), so
invoking `"tag"` on the clone raises `AttributeError` — the first
invocation can never instantiate the factory bound to the clone. On the
original, by contrast, invocation succeeds and binds to identity 0. -/
theorem extension_rebinding_eval :
    ((PatternObj.registerExt { pid := 0 } "tag" 7).cloneObj 1).extOf.registryMap = []
    ∧ ((PatternObj.registerExt { pid := 0 } "tag" 7).cloneObj 1).extOf.patternRef = 0
    ∧ ((PatternObj.registerExt { pid := 0 } "tag" 7).cloneObj 1).pid = 1
    ∧ ((PatternObj.registerExt { pid := 0 } "tag" 7).cloneObj 1).extOf.getattrExt "tag"
        = Except.error "AttributeError"
    ∧ (PatternObj.registerExt { pid := 0 } "tag" 7).extOf.getattrExt "tag"
        = Except.ok ({ registryMap := [("tag", 7)], patternRef := 0,
                       callbacksReady := true, callbacks := [("tag", (7, 0))] },
                     (7, 0)) :=
  ⟨rfl, rfl, rfl, rfl, rfl⟩

/-- Claim C6, counterexample: disabling `case_insensitive` on a Pattern
whose flag set does not contain the flag raises `KeyError`
(`set.remove`), instead of being a no-op returning a Pattern without the
flag. -/
theorem flag_disable_cex :
    emptyPattern.case_insensitive false = Except.error "KeyError"
    ∧ emptyPattern.flags.has .ignorecase = false :=
  ⟨rfl, rfl⟩

/-- Claim C6, amended: each of the four flag toggles called with
`enabled=False` removes the flag from a clone's flag set and returns the
clone when the flag is currently present (leaving every other flag
unchanged), but raises `KeyError` when the flag is absent — it is not a
no-op. -/
theorem flag_disable_amended (p : Pattern) (f : PFlag) :
    (p.flags.has f = false → p.updateFlag f false = .error "KeyError")
    ∧ (p.flags.has f = true →
        p.updateFlag f false = .ok { p with flags := p.flags.set f false }
        ∧ (p.flags.set f false).has f = false
        ∧ (∀ g, ¬ g = f → (p.flags.set f false).has g = p.flags.has g))
    ∧ p.case_insensitive false = p.updateFlag .ignorecase false
    ∧ p.multiline false = p.updateFlag .multilineOpt false
    ∧ p.dot_matches_newline false = p.updateFlag .dotall false
    ∧ p.ascii_only false = p.updateFlag .asciiOnly false := by
  refine ⟨?_, ?_, rfl, rfl, rfl, rfl⟩
  · intro h
    simp [Pattern.updateFlag, FlagSet.updateOption, FlagSet.removeOption,
      Pattern.clone, h, Except.map]
  · intro h
    refine ⟨?_, ?_, ?_⟩
    · simp [Pattern.updateFlag, FlagSet.updateOption, FlagSet.removeOption,
        Pattern.clone, h, Except.map]
    · cases f <;> simp [FlagSet.set, FlagSet.has]
    · intro g hg
      cases f <;> cases g <;> simp_all [FlagSet.set, FlagSet.has]

/-- Claim C6, witness: removing a present flag at a concrete Pattern. -/
theorem flag_disable_witness :
    Pattern.updateFlag { flags := { ignorecase := true } } .ignorecase false
      = Except.ok { flags := {} } :=
  (((flag_disable_amended { flags := { ignorecase := true } } .ignorecase).2.1)
    rfl).1.trans (by rfl)

/-- Claim C7, counterexample: two independently built Patterns
(`Pattern().any_of('a')` twice, so the bracket metacharacter instances
are distinct objects) render to the same token strings and carry equal
flag sets, yet compare UNEQUAL, because `Metacharacter` tokens compare
by object identity inside `deque.__eq__` — object identity is not
irrelevant. -/
theorem pattern_equality_cex :
    (emptyPattern.any_of [.plain "a"] 0 1 true).tokens.map Tok.render
      = (emptyPattern.any_of [.plain "a"] 2 3 true).tokens.map Tok.render
    ∧ (emptyPattern.any_of [.plain "a"] 0 1 true).flags
        = (emptyPattern.any_of [.plain "a"] 2 3 true).flags
    ∧ (emptyPattern.any_of [.plain "a"] 0 1 true).build 9
        = (emptyPattern.any_of [.plain "a"] 2 3 true).build 9
    ∧ Pattern.pyEq (emptyPattern.any_of [.plain "a"] 0 1 true)
        (emptyPattern.any_of [.plain "a"] 2 3 true) = false := by
  refine ⟨by decide, by decide, by decide, by decide⟩

/-- Claim C7, amended: two Patterns compare equal iff their flag sets are
equal as sets and their token stacks are equal element-by-element under
Python token equality — string tokens by value, metacharacter tokens by
object identity (the bracket stack plays no role). Flag-toggle order is
irrelevant to equality, and independently built Patterns whose token
stacks consist of the same string tokens (no metacharacter instances)
compare equal. -/
theorem pattern_equality_amended (p q : Pattern) (f g : PFlag)
    (ts : List String) (bs1 bs2 : List Tok) (fs : FlagSet) :
    (p.pyEq q = true ↔ (p.flags = q.flags ∧ listPyEq p.tokens q.tokens = true))
    ∧ p.updateFlag f true = .ok (p.enableFlag f)
    ∧ ((p.enableFlag f).enableFlag g).pyEq ((p.enableFlag g).enableFlag f) = true
    ∧ Pattern.pyEq { tokens := ts.map .str, brackets := bs1, flags := fs }
        { tokens := ts.map .str, brackets := bs2, flags := fs } = true := by
  refine ⟨?_, rfl, ?_, ?_⟩
  · simp [Pattern.pyEq, Bool.and_eq_true, beq_iff_eq]
  · have hcomm := addOption_comm p.flags f g
    simp [Pattern.pyEq, Pattern.enableFlag, Pattern.clone, hcomm, listPyEq_refl]
  · simp [Pattern.pyEq, listPyEq_refl]

/-- Claim C9: for a Cache constructed with nonnegative `maxsize`, the
invariant `current_size <= maxsize` holds after any sequence of
`get`/`add`/`clear` operations from the initial empty state, and a single
operation preserves the invariant from any state satisfying it. -/
theorem cache_size_invariant (K V : Type) [DecidableEq K] (ms : Int)
    (hms : 0 ≤ ms) (ops : List (CacheOp K V)) (c : Cache K V)
    (op : CacheOp K V) (hc : (c.current_size : Int) ≤ c.maxsize) :
    ((({ maxsize := ms } : Cache K V).runOps ops).current_size : Int) ≤ ms
    ∧ ((c.runOp op).current_size : Int) ≤ c.maxsize := by
  constructor
  · have h0 : ((({ maxsize := ms } : Cache K V).current_size : Int))
        ≤ ({ maxsize := ms } : Cache K V).maxsize := by
      simpa [Cache.current_size] using hms
    have h1 := Cache.runOps_size_le ops _ h0
    rwa [Cache.runOps_maxsize] at h1
  · have h2 := Cache.runOp_size_le c op hc
    rwa [Cache.runOp_maxsize] at h2

/-- Claim C9, witness: the invariant evaluated on a concrete operation
sequence (including a hit, an eviction and a clear) with `maxsize=2`. -/
theorem cache_size_invariant_witness :
    ((({ maxsize := 2 } : Cache Nat Nat).runOps
        [.add 0 0, .add 1 1, .get 0, .add 2 2, .clear]).current_size : Int) ≤ 2
    ∧ ((({ maxsize := 2 } : Cache Nat Nat).runOp (.add 5 5)).current_size : Int)
        ≤ ({ maxsize := 2 } : Cache Nat Nat).maxsize :=
  cache_size_invariant Nat Nat 2 (by decide)
    [.add 0 0, .add 1 1, .get 0, .add 2 2, .clear]
    { maxsize := 2 } (.add 5 5) (by decide)

end Regularize
